import Mathlib

set_option linter.unusedVariables false

/-!
Shallow embedding of the sony-slider browsing controller.

The controller lives in `src/app/page.tsx` (component `Home`): React state
`currentIndex`, `viewedCount`, `hasUnlocked`, `showEmailGate`, a set ref
`viewedItemsRef`, a Swiper handle, the event handlers `handleSlideChange`,
`handleSlideChangeTransitionStart`, `handleTouchEnd`, `handleTouchMove`,
`handleEmailSubmit`, and two `useEffect` blocks (visited tracking, Swiper
`allowSlideNext` / `resistanceRatio` configuration).  The email gate modal
(`EmailGateModal` in `src/app/components`) contributes `validateEmail` and
its form `handleSubmit`.

Machine integers do not arise: all indices are ordinary JS numbers used as
small integers, modelled by `Int`; the resistance ratio literal `0.85` is
modelled exactly as the rational `0.85`.  The Swiper mechanism itself is
external: its observable configuration (settled index, `allowSlideNext`,
`resistanceRatio`, the last `slideTo` command issued, the pending deferred
`slideTo` timer) is carried in the state, and carousel-originated events
(slide change, transition start, touch move/end) arrive as external inputs.
-/

/-- The JavaScript whitespace class: the characters matched by `\s` in a
JS regular expression, which is also the set stripped by
`String.prototype.trim`. -/
def isJsSpace (c : Char) : Bool :=
  [0x9, 0xa, 0xb, 0xc, 0xd, 0x20, 0xa0, 0x1680,
   0x2028, 0x2029, 0x202f, 0x205f, 0x3000, 0xfeff].contains c.toNat
  || (0x2000 <= c.toNat && c.toNat <= 0x200a)

/-- JavaScript `String.prototype.trim`: strip JS whitespace from both
ends. -/
def trimJs (s : String) : String :=
  ⟨((s.data.dropWhile isJsSpace).reverse.dropWhile isJsSpace).reverse⟩

/-- A character admitted by the character class of the email regex in
`EmailGateModal.validateEmail`: the class is written there as a
negated class excluding whitespace and the at sign. -/
def emailChar (c : Char) : Bool :=
  !(isJsSpace c) && !(c = '@')

/-- A nonempty run of `emailChar` characters: one plus-quantified block of
the email regex. -/
def emailBlock (cs : List Char) : Bool :=
  !cs.isEmpty && cs.all emailChar

/-- Anchored match of the part of the email regex after the at sign
(block, dot, block) against the whole of `cs`: some position `j` holds a
literal dot with a nonempty block on each side. -/
def emailTail (cs : List Char) : Bool :=
  (List.range cs.length).any fun j =>
    cs.get? j == some '.' && emailBlock (cs.take j) && emailBlock (cs.drop (j+1))

/-- Anchored match of the whole email regex of `EmailGateModal`:
some position `i` holds the literal at sign, preceded by a nonempty block
and followed by a match of `emailTail`. -/
def matchesEmailRegex (s : String) : Bool :=
  let cs := s.data
  (List.range cs.length).any fun i =>
    cs.get? i == some '@' && emailBlock (cs.take i) && emailTail (cs.drop (i+1))

/-- `validateEmail` from `EmailGateModal`: test the input against the
email regex. -/
def validateEmail (s : String) : Bool := matchesEmailRegex s

/-- A nonempty run of non-whitespace characters, as the spec words it
(the spec block class does not exclude the at sign). -/
def specBlock (cs : List Char) : Bool :=
  !cs.isEmpty && cs.all fun c => !(isJsSpace c)

/-- The spec stated email shape, transcribed from its words alone (for
comparison with `matchesEmailRegex`): "non-space characters, `@`,
non-space characters, `.`, non-space characters". -/
def specEmailPattern (s : String) : Bool :=
  let cs := s.data
  (List.range cs.length).any fun i =>
    cs.get? i == some '@' && specBlock (cs.take i) &&
      ((List.range (cs.drop (i+1)).length).any fun j =>
        (cs.drop (i+1)).get? j == some '.' &&
        specBlock ((cs.drop (i+1)).take j) &&
        specBlock ((cs.drop (i+1)).drop (j+1)))

/-- The two inline validation failures of the modal `handleSubmit`. -/
inductive EmailError where
  | empty
  | malformed
deriving DecidableEq

/-- Result of the modal `handleSubmit` on a raw input string: a surfaced
validation failure, or success carrying the email passed to `onSubmit`. -/
inductive SubmitOutcome where
  | failure (e : EmailError)
  | success (email : String)
deriving DecidableEq

/-- The pure validation pipeline of `EmailGateModal.handleSubmit`: trim,
reject the empty string, reject a regex mismatch, otherwise succeed with
the trimmed email. -/
def submitOutcome (raw : String) : SubmitOutcome :=
  let trimmedEmail := trimJs raw
  if trimmedEmail = "" then .failure .empty
  else if !validateEmail trimmedEmail then .failure .malformed
  else .success trimmedEmail

/-- Whether a submit outcome is a surfaced validation failure. -/
def isFailure : SubmitOutcome → Bool
  | .failure _ => true
  | .success _ => false

/-- The session state of the `Home` component together with the observable
configuration of its Swiper handle. -/
@[ext]
structure AppState where
  currentIndex : Int
  viewedItems : Finset Int
  viewedCount : Nat
  hasUnlocked : Bool
  showEmailGate : Bool
  swiperIndex : Int
  allowSlideNext : Bool
  resistanceRatio : ℚ
  lastSlideCommand : Option (Int × Nat)
  pendingSlideTo : Option (Int × Nat)
  modalError : Option EmailError
deriving DecidableEq

/-- The state after mount: `useState(0)`, `useState(1)`, both flags false,
`viewedItemsRef` holding `{0}`, Swiper resting at 0 with
`allowSlideNext = true` (set in `onSwiper`) and `resistanceRatio = 0`
(the prop value, which the mount run of the configuration effect also
computes for `hasUnlocked = false`), no command issued, no pending
timer, no modal error. -/
def initState : AppState where
  currentIndex := 0
  viewedItems := {0}
  viewedCount := 1
  hasUnlocked := false
  showEmailGate := false
  swiperIndex := 0
  allowSlideNext := true
  resistanceRatio := 0
  lastSlideCommand := none
  pendingSlideTo := none
  modalError := none

/-- `handleSlideChange` from `page.tsx`: on a reported new active index,
if not unlocked and the index is 10 or beyond, show the gate and revert
the carousel to 9 with a zero-duration `slideTo`, leaving `currentIndex`
alone; otherwise set `currentIndex` to the new index. -/
def handleSlideChange (s : AppState) (newIndex : Int) : AppState :=
  if s.hasUnlocked = false ∧ 10 ≤ newIndex then
    { s with showEmailGate := true, swiperIndex := 9,
             lastSlideCommand := some (9, 0) }
  else
    { s with currentIndex := newIndex }

/-- `handleSlideChangeTransitionStart` from `page.tsx`: if unlocked, do
nothing; otherwise, if the transition targets index 10 or beyond, show the
gate and revert to 9 with a zero-duration `slideTo`. -/
def handleSlideChangeTransitionStart (s : AppState) (targetIndex : Int) : AppState :=
  if s.hasUnlocked = true then s
  else if 10 ≤ targetIndex then
    { s with showEmailGate := true, swiperIndex := 9,
             lastSlideCommand := some (9, 0) }
  else s

/-- `handleTouchEnd` from `page.tsx`.  `startX = none` models a missing
`touchEventsData` or an undefined `startX`; the JS expression
`currentX || startX` falls back to `startX` both when `currentX` is
undefined and when it equals 0 (JS falsiness).  When locked, resting at 9,
and the computed delta is below -50, show the gate and issue a
zero-duration revert to 9. -/
def handleTouchEnd (s : AppState) (startX currentX : Option Int) : AppState :=
  if s.hasUnlocked = false ∧ s.swiperIndex = 9 then
    match startX with
    | none => s
    | some sx =>
      let cx : Int :=
        match currentX with
        | none => sx
        | some x => if x = 0 then sx else x
      if cx - sx < -50 then
        { s with showEmailGate := true, swiperIndex := 9,
                 lastSlideCommand := some (9, 0) }
      else s
  else s

/-- `handleTouchMove` from `page.tsx`: when locked, resting at 9, with a
defined `startX`, show the gate as soon as the live touch position is more
than 50 pixels to the left of the start; no `slideTo` is issued here (the
handler only calls `event.preventDefault()`). -/
def handleTouchMove (s : AppState) (clientX : Int) (startX : Option Int) : AppState :=
  if s.hasUnlocked = false ∧ s.swiperIndex = 9 then
    match startX with
    | none => s
    | some sx =>
      if clientX - sx < -50 then { s with showEmailGate := true } else s
  else s

/-- `handleEmailSubmit` from `page.tsx`: unconditionally unlock and hide
the gate, set the Swiper `allowSlideNext` directly, and, when
`currentIndex` is 9 at submit time, schedule a deferred `slideTo(10, 300)`
via `setTimeout`.  The email argument is only logged. -/
def handleEmailSubmit (s : AppState) (email : String) : AppState :=
  let s1 := { s with hasUnlocked := true, showEmailGate := false,
                     allowSlideNext := true }
  if s.currentIndex = 9 then
    { s1 with pendingSlideTo := some (10, 300) }
  else s1

/-- `handleSubmit` of `EmailGateModal`: on a validation failure, surface
the error in the modal error state; on success, clear the error and
invoke the `onSubmit` callback (wired to `handleEmailSubmit`) with the
trimmed email. -/
def handleSubmit (s : AppState) (raw : String) : AppState :=
  match submitOutcome raw with
  | .failure e => { s with modalError := some e }
  | .success trimmedEmail =>
    { handleEmailSubmit s trimmedEmail with modalError := none }

/-- The visited-tracking `useEffect` of `page.tsx` (dependency
`[currentIndex]`): when `currentIndex` changed in this event and is not yet
in `viewedItemsRef`, add it and refresh `viewedCount` from the set
size. -/
def visitedEffect (pre post : AppState) : AppState :=
  if pre.currentIndex = post.currentIndex then post
  else if post.currentIndex ∈ post.viewedItems then post
  else
    let v := insert post.currentIndex post.viewedItems
    { post with viewedItems := v, viewedCount := v.card }

/-- The Swiper-configuration `useEffect` of `page.tsx` (dependencies
`[hasUnlocked, currentIndex]`): when either dependency changed in this
event, recompute `allowSlideNext = hasUnlocked || currentIndex < 10` and
`resistanceRatio = hasUnlocked ? 0.85 : 0`. -/
def configEffect (pre post : AppState) : AppState :=
  if pre.hasUnlocked = post.hasUnlocked ∧ pre.currentIndex = post.currentIndex then
    post
  else
    { post with
        allowSlideNext := post.hasUnlocked || decide (post.currentIndex < 10),
        resistanceRatio := if post.hasUnlocked = true then (0.85 : ℚ) else 0 }

/-- Both effects, run after an event handler against the pre-event render
state, in source order. -/
def applyEffects (pre post : AppState) : AppState :=
  configEffect pre (visitedEffect pre post)

/-- External events driving the controller.  Slide-change and
transition-start events carry the index the mechanism has moved to (its
`activeIndex` at handler time); touch events carry the relevant fields of
`touchEventsData` and the live touch position; a gate submit carries the
raw form text; `timerFire` is the deferred `setTimeout` callback
executing. -/
inductive Event where
  | slideChange (newIndex : Int)
  | transitionStart (targetIndex : Int)
  | touchMove (clientX : Int) (startX : Option Int)
  | touchEnd (startX currentX : Option Int)
  | gateSubmit (raw : String)
  | timerFire
deriving DecidableEq

/-- One event processed by the controller: the mechanism movement (for
index-carrying events), then the handler, then the React effects.  A gate
submit can only occur while the modal is rendered (`showEmailGate`); the
timer callback runs the pending `slideTo`, if any. -/
def step (s : AppState) (e : Event) : AppState :=
  let post :=
    match e with
    | .slideChange i => handleSlideChange { s with swiperIndex := i } i
    | .transitionStart i =>
      handleSlideChangeTransitionStart { s with swiperIndex := i } i
    | .touchMove cx sx => handleTouchMove s cx sx
    | .touchEnd sx cx => handleTouchEnd s sx cx
    | .gateSubmit raw => if s.showEmailGate = true then handleSubmit s raw else s
    | .timerFire =>
      match s.pendingSlideTo with
      | some (t, d) =>
        { s with swiperIndex := t, lastSlideCommand := some (t, d),
                 pendingSlideTo := none }
      | none => s
  applyEffects s post

/-- Run a sequence of events from a state. -/
def run (s : AppState) (es : List Event) : AppState := es.foldl step s

/-- States reachable from the post-mount initial state by event steps. -/
inductive Reachable : AppState → Prop where
  | init : Reachable initState
  | next {s : AppState} (h : Reachable s) (e : Event) : Reachable (step s e)

/-- The state produced by the suspend path: gate shown, carousel commanded
back to 9 with a zero-duration transition, everything else untouched. -/
def suspendedState (s : AppState) : AppState :=
  { s with showEmailGate := true, swiperIndex := 9,
           lastSlideCommand := some (9, 0) }

/-- A navigation-intent event reporting a target index at or beyond 10:
the events of the suspend policy. -/
def isLockAttempt (e : Event) : Prop :=
  ∃ i : Int, 10 ≤ i ∧ (e = .slideChange i ∨ e = .transitionStart i)

/-- The controller invariant: the gate only shows while locked, the
tracked index stays at or below 9 until unlock, the Swiper configuration
flags agree with the recomputation formulas of the configuration effect,
the tracked index has been recorded as viewed, and the view counter equals
the size of the viewed set. -/
def CtrlInv (s : AppState) : Prop :=
  (s.showEmailGate = true → s.hasUnlocked = false) ∧
  (s.currentIndex ≤ 9 ∨ s.hasUnlocked = true) ∧
  s.allowSlideNext = (s.hasUnlocked || decide (s.currentIndex < 10)) ∧
  s.resistanceRatio = (if s.hasUnlocked = true then (0.85 : ℚ) else 0) ∧
  s.currentIndex ∈ s.viewedItems ∧
  s.viewedCount = s.viewedItems.card

/-- A concrete locked state resting at index 9 with 0 and 9 viewed. -/
def restingAt9 : AppState :=
  { initState with currentIndex := 9, swiperIndex := 9,
                   viewedItems := {0, 9}, viewedCount := 2 }

/-- A concrete gated state: `restingAt9` with the email gate shown. -/
def gatedAt9 : AppState := { restingAt9 with showEmailGate := true }

/-- A concrete unlocked state at index 0. -/
def unlockedState : AppState :=
  { initState with hasUnlocked := true, resistanceRatio := (0.85 : ℚ) }

lemma applyEffects_of_deps_eq (pre post : AppState)
    (h1 : pre.currentIndex = post.currentIndex)
    (h2 : pre.hasUnlocked = post.hasUnlocked) :
    applyEffects pre post = post := by
  simp [applyEffects, visitedEffect, configEffect, h1, h2]

lemma step_slideChange_gate (s : AppState) (i : Int)
    (hU : s.hasUnlocked = false) (hi : 10 ≤ i) :
    step s (.slideChange i) = suspendedState s := by
  simp [step, handleSlideChange, suspendedState, hU, hi,
        applyEffects, visitedEffect, configEffect]

lemma step_transitionStart_gate (s : AppState) (i : Int)
    (hU : s.hasUnlocked = false) (hi : 10 ≤ i) :
    step s (.transitionStart i) = suspendedState s := by
  simp [step, handleSlideChangeTransitionStart, suspendedState, hU, hi,
        applyEffects, visitedEffect, configEffect]

lemma step_attempt (s : AppState) (e : Event) (hU : s.hasUnlocked = false)
    (he : isLockAttempt e) : step s e = suspendedState s := by
  obtain ⟨i, hi, h | h⟩ := he <;> subst h
  · exact step_slideChange_gate s i hU hi
  · exact step_transitionStart_gate s i hU hi

lemma suspendedState_idem (s : AppState) :
    suspendedState (suspendedState s) = suspendedState s := rfl

lemma run_attempts_fixed (s : AppState) (hU : s.hasUnlocked = false)
    (es : List Event) (hes : ∀ x ∈ es, isLockAttempt x) :
    run (suspendedState s) es = suspendedState s := by
  induction es with
  | nil => rfl
  | cons e es ih =>
    have h1 : step (suspendedState s) e = suspendedState s := by
      have := step_attempt (suspendedState s) e (by simp [suspendedState, hU])
        (hes e (by simp))
      rw [this, suspendedState_idem]
    show run (step (suspendedState s) e) es = suspendedState s
    rw [h1]
    exact ih fun x hx => hes x (by simp [hx])

/-- C1: For every navigation-intent event (slide-change or
transition-start) reporting a target index at or beyond 10 while
`hasUnlocked` is false, the controller shows the gate, commands the
carousel back to index 9 with a zero-duration transition, and leaves
`currentIndex` unchanged; and any consecutive sequence of such attempts
leaves the state exactly as after the first attempt. -/
theorem C1_locked_attempt_suspends_idempotent (s : AppState) (e : Event)
    (es : List Event) (hU : s.hasUnlocked = false) (he : isLockAttempt e)
    (hes : ∀ x ∈ es, isLockAttempt x) :
    (step s e).showEmailGate = true ∧
    (step s e).lastSlideCommand = some (9, 0) ∧
    (step s e).swiperIndex = 9 ∧
    (step s e).currentIndex = s.currentIndex ∧
    run s (e :: es) = step s e := by
  have h1 := step_attempt s e hU he
  refine ⟨by rw [h1]; rfl, by rw [h1]; rfl, by rw [h1]; rfl, by rw [h1]; rfl, ?_⟩
  show run (step s e) es = step s e
  rw [h1]
  exact run_attempts_fixed s hU es hes

/-- Witness for C1: from the initial state, a slide-change to 12 followed
by a transition-start to 10 and a slide-change to 11 behaves as a single
suspended attempt. -/
theorem C1_witness :
    (step initState (.slideChange 12)).showEmailGate = true ∧
    (step initState (.slideChange 12)).lastSlideCommand = some (9, 0) ∧
    (step initState (.slideChange 12)).swiperIndex = 9 ∧
    (step initState (.slideChange 12)).currentIndex = initState.currentIndex ∧
    run initState
      (.slideChange 12 :: [.transitionStart 10, .slideChange 11]) =
      step initState (.slideChange 12) :=
  C1_locked_attempt_suspends_idempotent initState (.slideChange 12)
    [.transitionStart 10, .slideChange 11] rfl
    ⟨12, by decide, Or.inl rfl⟩
    (by
      intro x hx
      simp only [List.mem_cons, List.mem_singleton] at hx
      rcases hx with h | h | h
      · exact ⟨10, by decide, Or.inr (by rw [h])⟩
      · exact ⟨11, by decide, Or.inl (by rw [h])⟩
      · cases h)

lemma step_slideChange_same (s : AppState) (i : Int)
    (hc : ¬(s.hasUnlocked = false ∧ 10 ≤ i)) (h : s.currentIndex = i) :
    step s (.slideChange i) = { s with swiperIndex := i, currentIndex := i } := by
  simp [step, handleSlideChange, hc, h, applyEffects, visitedEffect, configEffect]

lemma step_slideChange_revisit (s : AppState) (i : Int)
    (hc : ¬(s.hasUnlocked = false ∧ 10 ≤ i)) (h : ¬s.currentIndex = i)
    (hm : i ∈ s.viewedItems) :
    step s (.slideChange i) =
      { s with swiperIndex := i, currentIndex := i,
               allowSlideNext := s.hasUnlocked || decide (i < 10),
               resistanceRatio := if s.hasUnlocked = true then (0.85 : ℚ) else 0 } := by
  simp [step, handleSlideChange, hc, h, hm, applyEffects, visitedEffect, configEffect]

lemma step_slideChange_fresh (s : AppState) (i : Int)
    (hc : ¬(s.hasUnlocked = false ∧ 10 ≤ i)) (h : ¬s.currentIndex = i)
    (hm : i ∉ s.viewedItems) :
    step s (.slideChange i) =
      { s with swiperIndex := i, currentIndex := i,
               viewedItems := insert i s.viewedItems,
               viewedCount := (insert i s.viewedItems).card,
               allowSlideNext := s.hasUnlocked || decide (i < 10),
               resistanceRatio := if s.hasUnlocked = true then (0.85 : ℚ) else 0 } := by
  simp [step, handleSlideChange, hc, h, hm, applyEffects, visitedEffect, configEffect]

lemma step_transitionStart_skip (s : AppState) (i : Int)
    (h : s.hasUnlocked = true ∨ i < 10) :
    step s (.transitionStart i) = { s with swiperIndex := i } := by
  rcases h with h | h
  · simp [step, handleSlideChangeTransitionStart, h, applyEffects,
          visitedEffect, configEffect]
  · by_cases hU : s.hasUnlocked = true <;>
      simp [step, handleSlideChangeTransitionStart, hU, not_le.mpr h,
            applyEffects, visitedEffect, configEffect]

lemma step_touchMove_open (s : AppState) (cx sx : Int)
    (hU : s.hasUnlocked = false) (h9 : s.swiperIndex = 9)
    (hd : cx - sx < -50) :
    step s (.touchMove cx (some sx)) = { s with showEmailGate := true } := by
  simp [step, handleTouchMove, hU, h9, hd, applyEffects, visitedEffect, configEffect]

lemma step_touchMove_spec (s : AppState) (cx : Int) (sxo : Option Int) :
    step s (.touchMove cx sxo) = s ∨
    (s.hasUnlocked = false ∧
      step s (.touchMove cx sxo) = { s with showEmailGate := true }) := by
  rcases sxo with _ | sx
  · left
    by_cases hg : s.hasUnlocked = false ∧ s.swiperIndex = 9 <;>
      simp [step, handleTouchMove, hg, applyEffects, visitedEffect, configEffect]
  · by_cases hg : s.hasUnlocked = false ∧ s.swiperIndex = 9
    · by_cases hd : cx - sx < -50
      · exact Or.inr ⟨hg.1, step_touchMove_open s cx sx hg.1 hg.2 hd⟩
      · left
        simp [step, handleTouchMove, hg, hd, applyEffects, visitedEffect,
              configEffect]
    · left
      simp [step, handleTouchMove, hg, applyEffects, visitedEffect, configEffect]

lemma step_touchEnd_open (s : AppState) (sx cx : Int)
    (hU : s.hasUnlocked = false) (h9 : s.swiperIndex = 9)
    (hd : (if cx = 0 then sx else cx) - sx < -50) :
    step s (.touchEnd (some sx) (some cx)) = suspendedState s := by
  simp [step, handleTouchEnd, hU, h9, hd, suspendedState, applyEffects,
        visitedEffect, configEffect]

lemma step_touchEnd_stay (s : AppState) (sx cx : Int)
    (hU : s.hasUnlocked = false) (h9 : s.swiperIndex = 9)
    (hd : ¬((if cx = 0 then sx else cx) - sx < -50)) :
    step s (.touchEnd (some sx) (some cx)) = s := by
  simp [step, handleTouchEnd, hU, h9, hd, applyEffects, visitedEffect,
        configEffect]

lemma step_touchEnd_spec (s : AppState) (sxo cxo : Option Int) :
    step s (.touchEnd sxo cxo) = s ∨
    (s.hasUnlocked = false ∧ step s (.touchEnd sxo cxo) = suspendedState s) := by
  rcases sxo with _ | sx
  · left
    by_cases hg : s.hasUnlocked = false ∧ s.swiperIndex = 9 <;>
      simp [step, handleTouchEnd, hg, applyEffects, visitedEffect, configEffect]
  · by_cases hg : s.hasUnlocked = false ∧ s.swiperIndex = 9
    · rcases cxo with _ | cx
      · left
        simp [step, handleTouchEnd, hg, applyEffects, visitedEffect, configEffect]
      · by_cases hd : (if cx = 0 then sx else cx) - sx < -50
        · exact Or.inr ⟨hg.1, step_touchEnd_open s sx cx hg.1 hg.2 hd⟩
        · exact Or.inl (step_touchEnd_stay s sx cx hg.1 hg.2 hd)
    · left
      simp [step, handleTouchEnd, hg, applyEffects, visitedEffect, configEffect]

lemma step_gateSubmit_closed (s : AppState) (raw : String)
    (h : s.showEmailGate = false) : step s (.gateSubmit raw) = s := by
  simp [step, h, applyEffects, visitedEffect, configEffect]

lemma step_gateSubmit_failure (s : AppState) (raw : String) (err : EmailError)
    (h : s.showEmailGate = true) (hf : submitOutcome raw = .failure err) :
    step s (.gateSubmit raw) = { s with modalError := some err } := by
  simp [step, h, handleSubmit, hf, applyEffects, visitedEffect, configEffect]

lemma step_gateSubmit_success_fields (s : AppState) (raw t : String)
    (h : s.showEmailGate = true) (hs : submitOutcome raw = .success t) :
    (step s (.gateSubmit raw)).hasUnlocked = true ∧
    (step s (.gateSubmit raw)).showEmailGate = false ∧
    (step s (.gateSubmit raw)).pendingSlideTo =
      (if s.currentIndex = 9 then some ((10 : Int), (300 : Nat))
       else s.pendingSlideTo) ∧
    (step s (.gateSubmit raw)).currentIndex = s.currentIndex ∧
    (step s (.gateSubmit raw)).viewedItems = s.viewedItems ∧
    (step s (.gateSubmit raw)).viewedCount = s.viewedCount ∧
    (step s (.gateSubmit raw)).allowSlideNext = true ∧
    (step s (.gateSubmit raw)).resistanceRatio =
      (if s.hasUnlocked = true then s.resistanceRatio else (0.85 : ℚ)) ∧
    (step s (.gateSubmit raw)).modalError = none ∧
    (step s (.gateSubmit raw)).swiperIndex = s.swiperIndex ∧
    (step s (.gateSubmit raw)).lastSlideCommand = s.lastSlideCommand := by
  by_cases h9 : s.currentIndex = 9 <;> by_cases hU : s.hasUnlocked = true <;>
    simp [step, h, handleSubmit, hs, handleEmailSubmit, h9, hU,
          applyEffects, visitedEffect, configEffect]

lemma step_timer_pending (s : AppState) (t : Int) (d : Nat)
    (h : s.pendingSlideTo = some (t, d)) :
    step s .timerFire =
      { s with swiperIndex := t, lastSlideCommand := some (t, d),
               pendingSlideTo := none } := by
  simp [step, h, applyEffects, visitedEffect, configEffect]

lemma step_timer_none (s : AppState) (h : s.pendingSlideTo = none) :
    step s .timerFire = s := by
  simp [step, h, applyEffects, visitedEffect, configEffect]

lemma ctrlInv_init : CtrlInv initState := by
  constructor
  · intro h; rfl
  refine ⟨Or.inl (by decide), rfl, by norm_num [initState], by decide, rfl⟩

lemma ctrlInv_suspended {s : AppState} (hU : s.hasUnlocked = false)
    (h : CtrlInv s) : CtrlInv (suspendedState s) := by
  obtain ⟨h1, h2, h3, h4, h5, h6⟩ := h
  exact ⟨fun _ => hU, h2, h3, h4, h5, h6⟩

lemma ctrlInv_step {s : AppState} (h : CtrlInv s) (e : Event) :
    CtrlInv (step s e) := by
  obtain ⟨h1, h2, h3, h4, h5, h6⟩ := h
  cases e with
  | slideChange i =>
    by_cases hg : s.hasUnlocked = false ∧ 10 ≤ i
    · rw [step_slideChange_gate s i hg.1 hg.2]
      exact ctrlInv_suspended hg.1 ⟨h1, h2, h3, h4, h5, h6⟩
    · have hlow : i ≤ 9 ∨ s.hasUnlocked = true := by
        rcases Bool.eq_false_or_eq_true s.hasUnlocked with hb | hb
        · right; exact hb
        · left
          by_contra hc
          exact hg ⟨hb, by omega⟩
      by_cases hsame : s.currentIndex = i
      · rw [step_slideChange_same s i hg hsame]
        refine ⟨h1, hlow, ?_, h4, ?_, h6⟩
        · simpa [← hsame] using h3
        · simpa [← hsame] using h5
      · by_cases hm : i ∈ s.viewedItems
        · rw [step_slideChange_revisit s i hg hsame hm]
          exact ⟨h1, hlow, rfl, rfl, hm, h6⟩
        · rw [step_slideChange_fresh s i hg hsame hm]
          exact ⟨h1, hlow, rfl, rfl, Finset.mem_insert_self i _, rfl⟩
  | transitionStart i =>
    by_cases hg : s.hasUnlocked = false ∧ 10 ≤ i
    · rw [step_transitionStart_gate s i hg.1 hg.2]
      exact ctrlInv_suspended hg.1 ⟨h1, h2, h3, h4, h5, h6⟩
    · have hsk : s.hasUnlocked = true ∨ i < 10 := by
        rcases Bool.eq_false_or_eq_true s.hasUnlocked with hb | hb
        · left; exact hb
        · right
          by_contra hc
          exact hg ⟨hb, by omega⟩
      rw [step_transitionStart_skip s i hsk]
      exact ⟨h1, h2, h3, h4, h5, h6⟩
  | touchMove cx sxo =>
    rcases step_touchMove_spec s cx sxo with hs | ⟨hU, hs⟩ <;> rw [hs]
    · exact ⟨h1, h2, h3, h4, h5, h6⟩
    · exact ⟨fun _ => hU, h2, h3, h4, h5, h6⟩
  | touchEnd sxo cxo =>
    rcases step_touchEnd_spec s sxo cxo with hs | ⟨hU, hs⟩ <;> rw [hs]
    · exact ⟨h1, h2, h3, h4, h5, h6⟩
    · exact ctrlInv_suspended hU ⟨h1, h2, h3, h4, h5, h6⟩
  | gateSubmit raw =>
    by_cases hvis : s.showEmailGate = true
    · cases ho : submitOutcome raw with
      | failure err =>
        rw [step_gateSubmit_failure s raw err hvis ho]
        exact ⟨h1, h2, h3, h4, h5, h6⟩
      | success t =>
        obtain ⟨f1, f2, f3, f4, f5, f6, f7, f8, f9, f10, f11⟩ :=
          step_gateSubmit_success_fields s raw t hvis ho
        refine ⟨fun hc => absurd f2 (by rw [hc]; exact fun h => nomatch h),
                Or.inr f1, ?_, ?_, ?_, ?_⟩
        · rw [f7, f1]; rfl
        · rw [f8, f1, h1 hvis]
          simp
        · rw [f4, f5]; exact h5
        · rw [f6, f5]; exact h6
    · have : s.showEmailGate = false := by
        cases hb : s.showEmailGate with
        | false => rfl
        | true => exact absurd hb hvis
      rw [step_gateSubmit_closed s raw this]
      exact ⟨h1, h2, h3, h4, h5, h6⟩
  | timerFire =>
    cases hp : s.pendingSlideTo with
    | none =>
      rw [step_timer_none s hp]
      exact ⟨h1, h2, h3, h4, h5, h6⟩
    | some td =>
      rw [step_timer_pending s td.1 td.2 (by rw [hp])]
      exact ⟨h1, h2, h3, h4, h5, h6⟩

lemma reachable_ctrlInv {s : AppState} (h : Reachable s) : CtrlInv s := by
  induction h with
  | init => exact ctrlInv_init
  | next _ e ih => exact ctrlInv_step ih e

lemma step_touchMove_stay (s : AppState) (cx sx : Int)
    (hU : s.hasUnlocked = false) (h9 : s.swiperIndex = 9)
    (hd : ¬(cx - sx < -50)) :
    step s (.touchMove cx (some sx)) = s := by
  simp [step, handleTouchMove, hU, h9, hd, applyEffects, visitedEffect,
        configEffect]

lemma step_touchMove_noStart (s : AppState) (cx : Int) :
    step s (.touchMove cx none) = s := by
  by_cases hg : s.hasUnlocked = false ∧ s.swiperIndex = 9 <;>
    simp [step, handleTouchMove, hg, applyEffects, visitedEffect, configEffect]

lemma step_touchEnd_noStart (s : AppState) (cxo : Option Int) :
    step s (.touchEnd none cxo) = s := by
  by_cases hg : s.hasUnlocked = false ∧ s.swiperIndex = 9 <;>
    simp [step, handleTouchEnd, hg, applyEffects, visitedEffect, configEffect]

lemma step_slideChange_else_currentIndex (s : AppState) (i : Int)
    (hc : ¬(s.hasUnlocked = false ∧ 10 ≤ i)) :
    (step s (.slideChange i)).currentIndex = i := by
  by_cases hsame : s.currentIndex = i
  · rw [step_slideChange_same s i hc hsame]
  · by_cases hm : i ∈ s.viewedItems
    · rw [step_slideChange_revisit s i hc hsame hm]
    · rw [step_slideChange_fresh s i hc hsame hm]

lemma step_slideChange_low_fields (s : AppState) (i : Int) (hi : i < 10)
    (hm : s.currentIndex ∈ s.viewedItems)
    (hc : s.viewedCount = s.viewedItems.card) :
    (step s (.slideChange i)).currentIndex = i ∧
    (step s (.slideChange i)).viewedItems = insert i s.viewedItems ∧
    (step s (.slideChange i)).viewedCount = (insert i s.viewedItems).card ∧
    (step s (.slideChange i)).hasUnlocked = s.hasUnlocked ∧
    (step s (.slideChange i)).showEmailGate = s.showEmailGate := by
  have hcnd : ¬(s.hasUnlocked = false ∧ 10 ≤ i) := fun hh =>
    absurd hh.2 (not_le.mpr hi)
  by_cases hsame : s.currentIndex = i
  · rw [step_slideChange_same s i hcnd hsame]
    have he : insert i s.viewedItems = s.viewedItems :=
      Finset.insert_eq_self.mpr (hsame ▸ hm)
    exact ⟨rfl, by simp [he], by simp [he, hc], rfl, rfl⟩
  · by_cases hmem : i ∈ s.viewedItems
    · rw [step_slideChange_revisit s i hcnd hsame hmem]
      have he : insert i s.viewedItems = s.viewedItems :=
        Finset.insert_eq_self.mpr hmem
      exact ⟨rfl, by simp [he], by simp [he, hc], rfl, rfl⟩
    · rw [step_slideChange_fresh s i hcnd hsame hmem]
      exact ⟨rfl, rfl, rfl, rfl, rfl⟩

lemma step_unlocked_stable (s : AppState) (e : Event)
    (hU : s.hasUnlocked = true) (hG : s.showEmailGate = false) :
    (step s e).hasUnlocked = true ∧ (step s e).showEmailGate = false := by
  have hcnd : ∀ i : Int, ¬(s.hasUnlocked = false ∧ 10 ≤ i) := by
    intro i hh
    rw [hU] at hh
    exact absurd hh.1 (by simp)
  cases e with
  | slideChange i =>
    by_cases hsame : s.currentIndex = i
    · rw [step_slideChange_same s i (hcnd i) hsame]; exact ⟨hU, hG⟩
    · by_cases hm : i ∈ s.viewedItems
      · rw [step_slideChange_revisit s i (hcnd i) hsame hm]; exact ⟨hU, hG⟩
      · rw [step_slideChange_fresh s i (hcnd i) hsame hm]; exact ⟨hU, hG⟩
  | transitionStart i =>
    rw [step_transitionStart_skip s i (Or.inl hU)]; exact ⟨hU, hG⟩
  | touchMove cx sxo =>
    rcases step_touchMove_spec s cx sxo with hs | ⟨hF, _⟩
    · rw [hs]; exact ⟨hU, hG⟩
    · rw [hU] at hF; cases hF
  | touchEnd sxo cxo =>
    rcases step_touchEnd_spec s sxo cxo with hs | ⟨hF, _⟩
    · rw [hs]; exact ⟨hU, hG⟩
    · rw [hU] at hF; cases hF
  | gateSubmit raw =>
    rw [step_gateSubmit_closed s raw hG]; exact ⟨hU, hG⟩
  | timerFire =>
    cases hp : s.pendingSlideTo with
    | none => rw [step_timer_none s hp]; exact ⟨hU, hG⟩
    | some td => rw [step_timer_pending s td.1 td.2 (by rw [hp])]; exact ⟨hU, hG⟩

lemma runNav (ts : List Int) (h : ∀ t ∈ ts, t < 10) :
    ∀ s : AppState, s.currentIndex ∈ s.viewedItems →
      s.viewedCount = s.viewedItems.card →
      (run s (ts.map Event.slideChange)).currentIndex =
        ts.getLastD s.currentIndex ∧
      (run s (ts.map Event.slideChange)).viewedItems =
        s.viewedItems ∪ ts.toFinset ∧
      (run s (ts.map Event.slideChange)).viewedCount =
        (s.viewedItems ∪ ts.toFinset).card ∧
      (run s (ts.map Event.slideChange)).hasUnlocked = s.hasUnlocked ∧
      (run s (ts.map Event.slideChange)).showEmailGate = s.showEmailGate := by
  induction ts with
  | nil =>
    intro s hm hc
    exact ⟨rfl, by simp [run], by simpa [run] using hc, rfl, rfl⟩
  | cons t ts ih =>
    intro s hm hc
    have ht : t < 10 := h t (by simp)
    obtain ⟨f1, f2, f3, f4, f5⟩ := step_slideChange_low_fields s t ht hm hc
    have hm2 : (step s (.slideChange t)).currentIndex ∈
        (step s (.slideChange t)).viewedItems := by
      rw [f1, f2]; exact Finset.mem_insert_self t _
    have hc2 : (step s (.slideChange t)).viewedCount =
        (step s (.slideChange t)).viewedItems.card := by rw [f3, f2]
    obtain ⟨g1, g2, g3, g4, g5⟩ :=
      ih (fun x hx => h x (by simp [hx])) (step s (.slideChange t)) hm2 hc2
    have hrw : run s ((t :: ts).map Event.slideChange) =
        run (step s (.slideChange t)) (ts.map Event.slideChange) := rfl
    have hset : (step s (.slideChange t)).viewedItems ∪ ts.toFinset =
        s.viewedItems ∪ (t :: ts).toFinset := by
      rw [f2, List.toFinset_cons, Finset.insert_union, Finset.union_insert]
    refine ⟨?_, ?_, ?_, ?_, ?_⟩
    · rw [hrw, g1, f1, List.getLastD_cons]
    · rw [hrw, g2, hset]
    · rw [hrw, g3, hset]
    · rw [hrw, g4, f4]
    · rw [hrw, g5, f5]

/-- C2: In every state reachable from the initial state by controller
events, `currentIndex` never exceeds 9 unless `hasUnlocked` is true, and
the gate is visible only while `hasUnlocked` is false. -/
theorem C2_reachable_invariant (s : AppState) (h : Reachable s) :
    (s.currentIndex ≤ 9 ∨ s.hasUnlocked = true) ∧
    (s.showEmailGate = true → s.hasUnlocked = false) :=
  ⟨(reachable_ctrlInv h).2.1, (reachable_ctrlInv h).1⟩

/-- Witness for C2: the invariant holds at the state reached by an
in-range navigation to 3 followed by a locked attempt to reach 12. -/
theorem C2_witness :
    ((step (step initState (Event.slideChange 3))
        (Event.slideChange 12)).currentIndex ≤ 9 ∨
      (step (step initState (Event.slideChange 3))
        (Event.slideChange 12)).hasUnlocked = true) ∧
    ((step (step initState (Event.slideChange 3))
        (Event.slideChange 12)).showEmailGate = true →
      (step (step initState (Event.slideChange 3))
        (Event.slideChange 12)).hasUnlocked = false) :=
  C2_reachable_invariant _
    (Reachable.next (Reachable.next Reachable.init (Event.slideChange 3))
      (Event.slideChange 12))

/-- C8: In every reachable state the Swiper forward-permission flag
equals `hasUnlocked || currentIndex < 10` and the resistance ratio equals
0.85 when unlocked and 0 when locked (so a blocked gesture while locked
has zero elastic resistance). -/
theorem C8_swiper_config_invariant (s : AppState) (h : Reachable s) :
    s.allowSlideNext = (s.hasUnlocked || decide (s.currentIndex < 10)) ∧
    s.resistanceRatio = (if s.hasUnlocked = true then (0.85 : ℚ) else 0) :=
  ⟨(reachable_ctrlInv h).2.2.1, (reachable_ctrlInv h).2.2.2.1⟩

/-- Witness for C8: the configuration formulas hold at the state reached
by one in-range navigation event. -/
theorem C8_witness :
    (step initState (Event.slideChange 5)).allowSlideNext =
      ((step initState (Event.slideChange 5)).hasUnlocked ||
        decide ((step initState (Event.slideChange 5)).currentIndex < 10)) ∧
    (step initState (Event.slideChange 5)).resistanceRatio =
      (if (step initState (Event.slideChange 5)).hasUnlocked = true
       then (0.85 : ℚ) else 0) :=
  C8_swiper_config_invariant _
    (Reachable.next Reachable.init (Event.slideChange 5))

/-- C5: Once `hasUnlocked` is true (with the gate down, as unlocking
leaves it), no subsequent sequence of events — navigation intents to any
index, touch gestures, submits, timers — ever shows the gate again, and
the unlock flag never reverts. -/
theorem C5_unlocked_gate_never_reopens (s : AppState) (es : List Event)
    (hU : s.hasUnlocked = true) (hG : s.showEmailGate = false) :
    (run s es).hasUnlocked = true ∧ (run s es).showEmailGate = false := by
  induction es generalizing s with
  | nil => exact ⟨hU, hG⟩
  | cons e es ih =>
    obtain ⟨h1, h2⟩ := step_unlocked_stable s e hU hG
    exact ih (step s e) h1 h2

/-- Witness for C5: from a concrete unlocked state, navigation to 15 and
20, a hard left swipe, and a stray submit never reopen the gate. -/
theorem C5_witness :
    (run unlockedState
      [Event.slideChange 15, Event.transitionStart 20,
       Event.touchEnd (some 100) (some 10),
       Event.gateSubmit "x@y.z"]).hasUnlocked = true ∧
    (run unlockedState
      [Event.slideChange 15, Event.transitionStart 20,
       Event.touchEnd (some 100) (some 10),
       Event.gateSubmit "x@y.z"]).showEmailGate = false :=
  C5_unlocked_gate_never_reopens unlockedState
    [Event.slideChange 15, Event.transitionStart 20,
     Event.touchEnd (some 100) (some 10), Event.gateSubmit "x@y.z"]
    rfl rfl

/-- C4: For every syntactically valid email submitted while gated, the
controller sets `hasUnlocked = true` and hides the gate, and schedules the
deferred animated `slideTo(10, 300)` command exactly when `currentIndex`
is 9 at submit time (otherwise the pending command is untouched). -/
theorem C4_valid_submit_unlocks (s : AppState) (raw t : String)
    (hg : s.showEmailGate = true) (hv : submitOutcome raw = .success t) :
    (step s (.gateSubmit raw)).hasUnlocked = true ∧
    (step s (.gateSubmit raw)).showEmailGate = false ∧
    (step s (.gateSubmit raw)).pendingSlideTo =
      (if s.currentIndex = 9 then some ((10 : Int), (300 : Nat))
       else s.pendingSlideTo) :=
  have h := step_gateSubmit_success_fields s raw t hg hv
  ⟨h.1, h.2.1, h.2.2.1⟩

/-- Witness for C4: submitting `user@example.com` in a gated state resting
at index 9 unlocks, closes the gate, and schedules the deferred
navigation. -/
theorem C4_witness :
    (step gatedAt9 (.gateSubmit "user@example.com")).hasUnlocked = true ∧
    (step gatedAt9 (.gateSubmit "user@example.com")).showEmailGate = false ∧
    (step gatedAt9 (.gateSubmit "user@example.com")).pendingSlideTo =
      (if gatedAt9.currentIndex = 9 then some ((10 : Int), (300 : Nat))
       else gatedAt9.pendingSlideTo) :=
  C4_valid_submit_unlocks gatedAt9 "user@example.com" "user@example.com"
    rfl (by decide)

/-- C10: The unlock callback validates nothing: for every string,
`handleEmailSubmit` unlocks and hides the gate; and whenever the modal
submit pipeline does invoke the callback, the argument is exactly the
trimmed input and passes the regex — validation happens only in the
modal. -/
theorem C10_callback_unvalidated (s : AppState) (email raw t : String) :
    ((handleEmailSubmit s email).hasUnlocked = true ∧
     (handleEmailSubmit s email).showEmailGate = false) ∧
    (submitOutcome raw = .success t →
      t = trimJs raw ∧ validateEmail t = true) := by
  constructor
  · by_cases h9 : s.currentIndex = 9 <;> simp [handleEmailSubmit, h9]
  · intro h
    by_cases h1 : trimJs raw = ""
    · simp [submitOutcome, h1] at h
    · by_cases h2 : validateEmail (trimJs raw) = true
      · simp [submitOutcome, h1, h2] at h
        exact ⟨h.symm, h ▸ h2⟩
      · simp [submitOutcome, h1, h2] at h

/-- Witness for C10: `handleEmailSubmit` unlocks even on a non-email
string, and the modal pipeline hands the callback the trimmed email. -/
theorem C10_witness :
    ((handleEmailSubmit initState "definitely not an email").hasUnlocked = true ∧
     (handleEmailSubmit initState "definitely not an email").showEmailGate = false) ∧
    ("a@b.co" = trimJs " a@b.co " ∧ validateEmail "a@b.co" = true) :=
  ⟨(C10_callback_unvalidated initState "definitely not an email"
      " a@b.co " "a@b.co").1,
   (C10_callback_unvalidated initState "definitely not an email"
      " a@b.co " "a@b.co").2 (by decide)⟩

/-- Counterexample to C3 as stated: the input `a@@b.c` does match the
spec stated pattern "non-space characters, at sign, non-space
characters, dot, non-space characters" (split `a` / `@b` / `c`, since `@`
is a non-space character) and its trim is nonempty, yet the code
validation fails it: the regex blocks exclude the at sign as well. -/
theorem C3_counterexample :
    isFailure (submitOutcome "a@@b.c") = true ∧
    ¬(trimJs "a@@b.c" = "" ∨ specEmailPattern (trimJs "a@@b.c") = false) := by
  decide

/-- C3 amended: Gate submission trims the input and surfaces a
validation failure exactly when the trimmed text is empty or fails the
code regex, whose blocks are runs of characters that are neither
whitespace nor `@` (not merely "non-space"); on every failure the pair
`(hasUnlocked, showEmailGate)` is unchanged. -/
theorem C3_amended_validation (raw : String) :
    (isFailure (submitOutcome raw) = true ↔
      (trimJs raw = "" ∨ matchesEmailRegex (trimJs raw) = false)) ∧
    (isFailure (submitOutcome raw) = true →
      ∀ s : AppState,
        (step s (.gateSubmit raw)).hasUnlocked = s.hasUnlocked ∧
        (step s (.gateSubmit raw)).showEmailGate = s.showEmailGate) := by
  constructor
  · by_cases h1 : trimJs raw = ""
    · simp [submitOutcome, h1, isFailure]
    · by_cases h2 : validateEmail (trimJs raw) = true
      · simp [submitOutcome, h1, h2, isFailure, validateEmail] at h2 ⊢
        simp [h2]
      · simp only [Bool.not_eq_true] at h2
        simp [submitOutcome, h1, h2, isFailure, validateEmail] at h2 ⊢
        simp [h2]
  · intro hf s
    by_cases hvis : s.showEmailGate = true
    · cases ho : submitOutcome raw with
      | success t => rw [ho] at hf; cases hf
      | failure err =>
        rw [step_gateSubmit_failure s raw err hvis ho]
        exact ⟨rfl, rfl⟩
    · have hG : s.showEmailGate = false := by
        cases hb : s.showEmailGate with
        | false => rfl
        | true => exact absurd hb hvis
      rw [step_gateSubmit_closed s raw hG]
      exact ⟨rfl, rfl⟩

/-- Witness for C3 (amended): the whitespace-only input fails validation
and leaves a concrete gated state unlock and gate flags unchanged. -/
theorem C3_amended_witness :
    (isFailure (submitOutcome "   ") = true ↔
      (trimJs "   " = "" ∨ matchesEmailRegex (trimJs "   ") = false)) ∧
    ((step gatedAt9 (.gateSubmit "   ")).hasUnlocked = gatedAt9.hasUnlocked ∧
     (step gatedAt9 (.gateSubmit "   ")).showEmailGate = gatedAt9.showEmailGate) :=
  ⟨(C3_amended_validation "   ").1,
   (C3_amended_validation "   ").2 (by decide) gatedAt9⟩

/-- Counterexample to C6 as stated: after a single navigation event with
in-range target 3, `viewedItems` is `{0, 3}`, not the set `{3}` of unique
targets seen — the session initial position 0 is always counted as
visited. -/
theorem C6_counterexample :
    (∀ t ∈ [(3 : Int)], 0 ≤ t ∧ t ≤ 9) ∧
    (run initState ([(3 : Int)].map Event.slideChange)).viewedItems ≠
      ([(3 : Int)]).toFinset := by
  decide

/-- C6 amended: For every sequence of navigation events with targets
in [0, 9]: `currentIndex` equals the last applied target (0 for the empty
sequence), `viewedItems` equals `{0}` together with the set of unique
targets seen (the initial position counts as visited), `viewedCount` is
its size, the size is monotone under appending one more in-range target,
and revisiting an already-visited index leaves the size unchanged. -/
theorem C6_amended_visited_tracking (ts : List Int)
    (h : ∀ t ∈ ts, 0 ≤ t ∧ t ≤ 9) :
    (run initState (ts.map Event.slideChange)).currentIndex =
      ts.getLastD 0 ∧
    (run initState (ts.map Event.slideChange)).viewedItems =
      insert 0 ts.toFinset ∧
    (run initState (ts.map Event.slideChange)).viewedCount =
      (insert 0 ts.toFinset).card ∧
    (∀ t : Int, 0 ≤ t → t ≤ 9 →
      (run initState (ts.map Event.slideChange)).viewedItems.card ≤
        (run initState ((ts ++ [t]).map Event.slideChange)).viewedItems.card ∧
      (t ∈ (run initState (ts.map Event.slideChange)).viewedItems →
        (run initState ((ts ++ [t]).map Event.slideChange)).viewedItems.card =
          (run initState (ts.map Event.slideChange)).viewedItems.card)) := by
  have hm0 : initState.currentIndex ∈ initState.viewedItems := by decide
  have hc0 : initState.viewedCount = initState.viewedItems.card := by decide
  have hlow : ∀ t ∈ ts, t < 10 := fun t ht => by
    have := (h t ht).2; omega
  obtain ⟨g1, g2, g3, _, _⟩ := runNav ts hlow initState hm0 hc0
  have hsing : initState.viewedItems ∪ ts.toFinset = insert 0 ts.toFinset := by
    show {0} ∪ ts.toFinset = insert 0 ts.toFinset
    rw [← Finset.insert_eq]
  refine ⟨by rw [g1]; rfl, by rw [g2, hsing], by rw [g3, hsing], ?_⟩
  intro t ht0 ht9
  have hlow2 : ∀ x ∈ ts ++ [t], x < 10 := by
    intro x hx
    rcases List.mem_append.mp hx with hx | hx
    · exact hlow x hx
    · simp at hx; omega
  obtain ⟨_, k2, _, _, _⟩ := runNav (ts ++ [t]) hlow2 initState hm0 hc0
  have hset2 : (run initState ((ts ++ [t]).map Event.slideChange)).viewedItems =
      insert 0 (insert t ts.toFinset) := by
    rw [k2]
    show {0} ∪ (ts ++ [t]).toFinset = insert 0 (insert t ts.toFinset)
    ext x
    simp [List.toFinset_append]
    tauto
  constructor
  · rw [g2, hsing, hset2]
    exact Finset.card_le_card
      (Finset.insert_subset_insert 0 (Finset.subset_insert t ts.toFinset))
  · intro hmem
    rw [g2, hsing] at hmem ⊢
    rw [hset2, Finset.Insert.comm, Finset.insert_eq_self.mpr hmem]

/-- Witness for C6 (amended): the sequence 3, 2, 3 tracks the last target,
collects `{0, 2, 3}` with count 3, and appending the revisit 2 keeps the
count at 3. -/
theorem C6_amended_witness :
    (run initState ([3, 2, 3].map Event.slideChange)).currentIndex =
      [(3 : Int), 2, 3].getLastD 0 ∧
    (run initState ([3, 2, 3].map Event.slideChange)).viewedItems =
      insert 0 [(3 : Int), 2, 3].toFinset ∧
    (run initState ([3, 2, 3].map Event.slideChange)).viewedCount =
      (insert 0 [(3 : Int), 2, 3].toFinset).card ∧
    (run initState (([3, 2, 3] ++ [2]).map Event.slideChange)).viewedItems.card =
      (run initState ([3, 2, 3].map Event.slideChange)).viewedItems.card :=
  have H := C6_amended_visited_tracking [3, 2, 3] (by decide)
  ⟨H.1, H.2.1, H.2.2.1, (H.2.2.2 2 (by decide) (by decide)).2 (by decide)⟩

/-- Counterexample to C7: an out-of-range navigation target (-1 < 0) is
not a no-op — from the initial state it changes both `currentIndex` and
the visited set. -/
theorem C7_counterexample :
    (-1 : Int) < 0 ∧
    (step initState (Event.slideChange (-1))).currentIndex ≠
      initState.currentIndex ∧
    (step initState (Event.slideChange (-1))).viewedItems ≠
      initState.viewedItems := by
  decide

/-- C7 amended: The slide-change handler performs no range check, so
out-of-range targets are not no-ops: a negative target is handled exactly
like an in-range one (`currentIndex := t`, `t` recorded as visited, gating
flags unchanged); a target at or beyond 10 — hence any target at or
beyond the catalog length — takes the suspend path while locked, and
updates `currentIndex` while unlocked. -/
theorem C7_amended_no_range_check (s : AppState) (t : Int)
    (hm : s.currentIndex ∈ s.viewedItems)
    (hc : s.viewedCount = s.viewedItems.card) :
    (t < 0 →
      (step s (.slideChange t)).currentIndex = t ∧
      (step s (.slideChange t)).viewedItems = insert t s.viewedItems ∧
      (step s (.slideChange t)).hasUnlocked = s.hasUnlocked ∧
      (step s (.slideChange t)).showEmailGate = s.showEmailGate) ∧
    (10 ≤ t → s.hasUnlocked = false →
      step s (.slideChange t) = suspendedState s) ∧
    (10 ≤ t → s.hasUnlocked = true →
      (step s (.slideChange t)).currentIndex = t) := by
  refine ⟨?_, ?_, ?_⟩
  · intro hneg
    obtain ⟨f1, f2, f3, f4, f5⟩ :=
      step_slideChange_low_fields s t (by omega) hm hc
    exact ⟨f1, f2, f4, f5⟩
  · intro hge hU
    exact step_slideChange_gate s t hU hge
  · intro hge hU
    exact step_slideChange_else_currentIndex s t (by simp [hU])

/-- Witness for C7 (amended): from the initial state, target -1 updates
the index and visited set, and target 12 takes the suspend path. -/
theorem C7_amended_witness :
    ((step initState (Event.slideChange (-1))).currentIndex = -1 ∧
     (step initState (Event.slideChange (-1))).viewedItems =
       insert (-1) initState.viewedItems ∧
     (step initState (Event.slideChange (-1))).hasUnlocked =
       initState.hasUnlocked ∧
     (step initState (Event.slideChange (-1))).showEmailGate =
       initState.showEmailGate) ∧
    step initState (Event.slideChange 12) = suspendedState initState :=
  ⟨(C7_amended_no_range_check initState (-1) (by decide) (by decide)).1
      (by decide),
   (C7_amended_no_range_check initState 12 (by decide) (by decide)).2.1
      (by decide) rfl⟩

/-- Counterexample to C9: a gesture ending at horizontal coordinate
exactly 0 has a true leftward delta of -60 (< -50) from startX = 60, yet
the touch-end handler does not open the gate, because the JS expression
`currentX || startX` treats the coordinate 0 as absent and computes a zero
delta. -/
theorem C9_counterexample :
    restingAt9.hasUnlocked = false ∧ restingAt9.swiperIndex = 9 ∧
    ((0 : Int) - 60 < -50) ∧
    (step restingAt9 (Event.touchEnd (some 60) (some 0))).showEmailGate =
      false := by
  decide

/-- C9 amended: While locked, resting at index 9, with the gate down:
touch-move opens the gate exactly when `clientX - startX < -50`; touch-end
opens the gate (and issues the zero-duration revert to 9) exactly when its
computed delta is below -50, where the current position falls back to
`startX` when `currentX` is undefined or equal to 0 — so a gesture ending
at coordinate 0 is masked to a zero delta and never opens the gate from
touch-end; with an undefined `startX` neither handler does anything. -/
theorem C9_amended_touch_threshold (s : AppState) (sx cx clientX : Int)
    (hU : s.hasUnlocked = false) (h9 : s.swiperIndex = 9)
    (hG : s.showEmailGate = false) :
    ((step s (.touchMove clientX (some sx))).showEmailGate = true ↔
      clientX - sx < -50) ∧
    ((step s (.touchEnd (some sx) (some cx))).showEmailGate = true ↔
      (if cx = 0 then sx else cx) - sx < -50) ∧
    ((step s (.touchEnd (some sx) (some cx))).showEmailGate = true →
      (step s (.touchEnd (some sx) (some cx))).lastSlideCommand = some (9, 0) ∧
      (step s (.touchEnd (some sx) (some cx))).swiperIndex = 9) ∧
    step s (.touchMove clientX none) = s ∧
    step s (.touchEnd none (some cx)) = s := by
  refine ⟨?_, ?_, ?_, step_touchMove_noStart s clientX,
          step_touchEnd_noStart s (some cx)⟩
  · by_cases hd : clientX - sx < -50
    · rw [step_touchMove_open s clientX sx hU h9 hd]
      simpa using hd
    · rw [step_touchMove_stay s clientX sx hU h9 hd]
      simp [hG, hd]
  · by_cases hd : (if cx = 0 then sx else cx) - sx < -50
    · rw [step_touchEnd_open s sx cx hU h9 hd]
      simpa [suspendedState] using hd
    · rw [step_touchEnd_stay s sx cx hU h9 hd]
      simp [hG, hd]
  · intro hopen
    by_cases hd : (if cx = 0 then sx else cx) - sx < -50
    · rw [step_touchEnd_open s sx cx hU h9 hd]
      exact ⟨rfl, rfl⟩
    · rw [step_touchEnd_stay s sx cx hU h9 hd] at hopen
      rw [hG] at hopen
      cases hopen

/-- Witness for C9 (amended): in the concrete locked state at 9, a
touch-end landing at -10 from startX = 60 opens the gate and reverts,
while the thresholds and no-op cases evaluate as stated. -/
theorem C9_amended_witness :
    ((step restingAt9 (.touchMove 0 (some 60))).showEmailGate = true ↔
      (0 : Int) - 60 < -50) ∧
    ((step restingAt9 (.touchEnd (some 60) (some (-10)))).showEmailGate = true ↔
      (if (-10 : Int) = 0 then (60 : Int) else -10) - 60 < -50) ∧
    ((step restingAt9 (.touchEnd (some 60) (some (-10)))).showEmailGate = true →
      (step restingAt9 (.touchEnd (some 60) (some (-10)))).lastSlideCommand =
        some (9, 0) ∧
      (step restingAt9 (.touchEnd (some 60) (some (-10)))).swiperIndex = 9) ∧
    step restingAt9 (.touchMove 0 none) = restingAt9 ∧
    step restingAt9 (.touchEnd none (some (-10))) = restingAt9 :=
  C9_amended_touch_threshold restingAt9 60 (-10) 0 rfl rfl rfl
